import Mathlib

/-!
Verification of the Sentry release-tracking plugin (`client.go`).

The plugin orchestrates remote calls against the Sentry REST API at three
release-lifecycle points (pre-publish, post-publish, on-error).  We embed the
orchestration logic shallowly:

* the remote API is an oracle (`SentryAPI`) mapping each operation to an
  `Except`-valued outcome, and every handler additionally returns the ordered
  trace of remote calls it performed (`List Call`), so that "performs no
  network calls" is the statement that the trace is empty;
* the Go `text/template` engine (an external standard-library collaborator)
  is an oracle (`TemplateEngine`); a concrete executable model `goTemplate`
  of the fragment the plugin uses (literal text plus the three recognized
  fields) instantiates it in witnesses and counterexamples;
* Go's `(*T, error)` return convention is kept explicit: every handler result
  records the Go-level error component (`goErr`), which the code always sets
  to `nil` (`none`);
* `time.Now()` is passed in as an abstract string `now` (its RFC3339
  rendering), and Go byte-indexed slicing of ASCII SHA strings is modelled by
  character lists.
-/

/-- Data handed to the version-format template: exactly the three recognized
fields (`formatVersion` in client.go). -/
structure TemplateData where
  Version : String
  TagName : String
  ShortSHA : String
deriving DecidableEq

/-- One conventional commit from the release event (SDK type
`plugin.ConventionalCommit`); the plugin reads only `Hash` and `Description`.
`Date` records the original commit time, which `extractCommits` ignores. -/
structure ConventionalCommit where
  Hash : String
  Description : String
  Date : String
deriving DecidableEq

/-- The categorized change lists of the release event (SDK type
`plugin.Changes`). -/
structure Changes where
  Features : List ConventionalCommit
  Fixes : List ConventionalCommit
  Breaking : List ConventionalCommit
  Other : List ConventionalCommit
deriving DecidableEq

/-- The release event (SDK type `plugin.ReleaseContext`); `Changes` is a Go
pointer, hence an `Option`. -/
structure ReleaseContext where
  Version : String
  TagName : String
  CommitSHA : String
  Branch : String
  Changes : Option Changes
deriving DecidableEq

/-- Commit association settings (`CommitsConfig` in client.go). -/
structure CommitsConfig where
  Auto : Bool
  Repository : String
deriving DecidableEq

/-- Deploy tracking settings (`DeployConfig` in client.go). -/
structure DeployConfig where
  Environment : String
  Name : String
deriving DecidableEq

/-- Plugin configuration (`Config` in client.go).  The `sourcemaps` block is
omitted: it is unused by the orchestration logic. -/
structure Config where
  AuthToken : String
  Org : String
  Project : String
  Projects : List String
  URL : String
  VersionFormat : String
  Environment : String
  SetCommits : Bool
  Commits : CommitsConfig
  CreateDeploy : Bool
  Deploy : DeployConfig
  UploadSourcemaps : Bool
  Finalize : Bool
deriving DecidableEq

/-- A Sentry project record (`Project` in client.go). -/
structure Project where
  ID : String
  Name : String
  Slug : String
deriving DecidableEq

/-- A Sentry release record (`Release` in client.go); `time.Time` fields are
modelled as strings. -/
structure Release where
  Version : String
  ShortVersion : String
  Ref : String
  URL : String
  DateCreated : String
  DateReleased : String
  Projects : List Project
deriving DecidableEq

/-- A Sentry deploy record (`Deploy` in client.go). -/
structure Deploy where
  ID : String
  Environment : String
  Name : String
  DateStarted : String
  DateFinished : String
deriving DecidableEq

/-- A Sentry organization record (`Organization` in client.go). -/
structure Organization where
  ID : String
  Slug : String
  Name : String
deriving DecidableEq

/-- A commit sent to the set-commits endpoint (`CommitSpec` in client.go). -/
structure CommitSpec where
  ID : String
  Repository : String
  Message : String
  AuthorName : String
  AuthorEmail : String
  Timestamp : String
deriving DecidableEq

/-- A value in the `Outputs` map of a response (`map[string]any` in Go; the
plugin only ever stores strings and string lists). -/
inductive OutputVal where
  | str (s : String)
  | strList (ss : List String)
deriving DecidableEq

/-- The structured response returned to the host
(`plugin.ExecuteResponse`). -/
structure ExecuteResponse where
  Success : Bool
  Message : String
  Error : String
  Outputs : List (String × OutputVal)
deriving DecidableEq

/-- One remote operation of the Sentry client, recorded with its arguments in
the order the handler performed it. -/
inductive Call where
  | getOrganization
  | createRelease (version : String) (projects : List String)
  | getRelease (version : String)
  | setCommits (version : String) (commits : List CommitSpec)
  | createDeploy (version : String) (deploy : DeployConfig)
  | finalizeRelease (version : String)
deriving DecidableEq

/-- Oracle for the remote Sentry API: the outcome each operation would have
if performed.  `Except.error` covers both transport and non-2xx API errors
(the Go client folds both into one `error` value). -/
structure SentryAPI where
  getOrganization : Except String Organization
  createRelease : String → List String → Except String Release
  getRelease : String → Except String Release
  setCommits : String → List CommitSpec → Except String Unit
  createDeploy : String → DeployConfig → Except String Deploy
  finalizeRelease : String → Except String Unit

/-- Oracle for the Go `text/template` engine: `render` is parse-plus-execute
(either failure surfaces as the error), `parse` is the parse-only check used
by `Validate`. -/
structure TemplateEngine where
  render : String → TemplateData → Except String String
  parse : String → Except String Unit

/-- The result of one Go handler call: the structured response, the Go-level
`error` return value, and the trace of remote calls performed. -/
structure HandlerResult where
  resp : ExecuteResponse
  goErr : Option String
  calls : List Call
deriving DecidableEq

/-- `shortSHA` (client.go): the first 7 characters of a SHA, or the whole
string if shorter.  Go slices bytes; SHA strings are ASCII, modelled as
characters. -/
def shortSHA (sha : String) : String :=
  if sha.length > 7 then String.mk (sha.toList.take 7) else sha

/-- The linear membership scan inside `Config.getProjects` (the `found`
loop in client.go). -/
def containsStr : List String → String → Bool
  | [], _ => false
  | p :: ps, s => if p = s then true else containsStr ps s

/-- `Config.getProjects` (client.go): the `projects` list, with the singular
`project` appended when it is non-empty and not already present. -/
def Config.getProjects (cfg : Config) : List String :=
  let projects := cfg.Projects
  if cfg.Project = "" then projects
  else if containsStr projects cfg.Project then projects
  else projects ++ [cfg.Project]

/-- `formatVersion` (client.go): render the version-format template over the
three recognized fields, the short SHA being derived via `shortSHA`. -/
def formatVersion (engine : TemplateEngine) (format : String)
    (ctx : ReleaseContext) : Except String String :=
  engine.render format
    { Version := ctx.Version, TagName := ctx.TagName,
      ShortSHA := shortSHA ctx.CommitSHA }

/-- Field lookup at template-execution time; only the three documented fields
resolve. -/
def lookupField (d : TemplateData) : String → Option String
  | ".Version" => some d.Version
  | ".TagName" => some d.TagName
  | ".ShortSHA" => some d.ShortSHA
  | _ => none

/-- Strip leading and trailing spaces from an action's text (Go templates
allow `\x7b\x7b .Version \x7d\x7d`). -/
def trimChars (cs : List Char) : List Char :=
  ((cs.dropWhile (fun c => c = ' ')).reverse.dropWhile
    (fun c => c = ' ')).reverse

/-- Modelled from the spec: the rendering pass of the external Go
`text/template` library (not part of this repository), restricted to the
fragment the plugin uses — literal text plus `\x7b\x7bfield\x7d\x7d` actions
over the three recognized fields.  The flag is true while inside an action,
`acc` accumulates the action text; an unterminated action is an error, as in
Go ("unclosed action"). -/
def renderGo (d : TemplateData) : List Char → Bool → List Char →
    Except String (List Char)
  | [], false, _ => Except.ok []
  | [], true, _ => Except.error "unclosed action"
  | '\x7b' :: '\x7b' :: rest, false, _ => renderGo d rest true []
  | '\x7d' :: '\x7d' :: rest, true, acc =>
      match lookupField d (String.mk (trimChars acc)) with
      | none => Except.error ("cannot evaluate field " ++ String.mk acc)
      | some v =>
          match renderGo d rest false [] with
          | Except.ok s => Except.ok (v.toList ++ s)
          | Except.error e => Except.error e
  | c :: rest, false, _ =>
      match renderGo d rest false [] with
      | Except.ok s => Except.ok (c :: s)
      | Except.error e => Except.error e
  | c :: rest, true, acc => renderGo d rest true (acc ++ [c])

/-- Modelled from the spec: the parse-only pass of the external Go
`text/template` library — syntax is checked (actions must be closed), field
names are not resolved until execution. -/
def parseGo : List Char → Bool → Bool
  | [], false => true
  | [], true => false
  | '\x7b' :: '\x7b' :: rest, false => parseGo rest true
  | '\x7d' :: '\x7d' :: rest, true => parseGo rest false
  | _ :: rest, m => parseGo rest m

/-- Modelled from the spec: concrete template engine standing in for Go
`text/template` in witnesses and counterexamples. -/
def goTemplate : TemplateEngine where
  render := fun fmt d =>
    match renderGo d fmt.toList false [] with
    | Except.ok cs => Except.ok (String.mk cs)
    | Except.error e => Except.error e
  parse := fun fmt =>
    if parseGo fmt.toList false then Except.ok () else
      Except.error "unclosed action"

/-- `SentryClient.CreateRelease` (client.go): POST the release; on any error,
fall back to `GetRelease` for the same version, returning the existing
release when that succeeds and the original create error otherwise. -/
def clientCreateRelease (api : SentryAPI) (version : String)
    (projects : List String) : Except String Release × List Call :=
  match api.createRelease version projects with
  | Except.ok r => (Except.ok r, [Call.createRelease version projects])
  | Except.error e =>
      match api.getRelease version with
      | Except.ok r =>
          (Except.ok r, [Call.createRelease version projects,
                         Call.getRelease version])
      | Except.error _ =>
          (Except.error e, [Call.createRelease version projects,
                            Call.getRelease version])

/-- `handlePrePublish` (client.go): render the version, short-circuit on a
template error, report the dry-run plan, otherwise create the release (with
the get-release fallback inside `clientCreateRelease`). -/
def handlePrePublish (engine : TemplateEngine) (api : SentryAPI)
    (cfg : Config) (releaseCtx : ReleaseContext) (dryRun : Bool) :
    HandlerResult :=
  match formatVersion engine cfg.VersionFormat releaseCtx with
  | Except.error e =>
      { resp := { Success := false, Message := "",
                  Error := "Failed to format version: " ++ e, Outputs := [] },
        goErr := none, calls := [] }
  | Except.ok version =>
      let projects := cfg.getProjects
      if dryRun then
        { resp := { Success := true,
                    Message := "Would create Sentry release \x27" ++ version
                      ++ "\x27 for projects: "
                      ++ String.intercalate ", " projects,
                    Error := "",
                    Outputs := [("version", OutputVal.str version),
                                ("projects", OutputVal.strList projects)] },
          goErr := none, calls := [] }
      else
        match clientCreateRelease api version projects with
        | (Except.error e, calls) =>
            { resp := { Success := false, Message := "",
                        Error := "Failed to create release: " ++ e,
                        Outputs := [] },
              goErr := none, calls := calls }
        | (Except.ok release, calls) =>
            { resp := { Success := true,
                        Message := "Created Sentry release: "
                          ++ release.Version,
                        Error := "",
                        Outputs :=
                          [("version", OutputVal.str release.Version),
                           ("release_url", OutputVal.str release.URL),
                           ("date_created",
                            OutputVal.str release.DateCreated)] },
              goErr := none, calls := calls }

/-- `extractCommits` (client.go): concatenate the four change categories in
order, mapping each commit to a `CommitSpec` whose repository is the
configured one (or "unknown") and whose timestamp is the wall-clock `now`,
not the commit's own date. -/
def extractCommits (cfg : Config) (releaseCtx : ReleaseContext)
    (now : String) : List CommitSpec :=
  match releaseCtx.Changes with
  | none => []
  | some ch =>
      let repository :=
        if cfg.Commits.Repository = "" then "unknown"
        else cfg.Commits.Repository
      let allCommits := ch.Features ++ ch.Fixes ++ ch.Breaking ++ ch.Other
      allCommits.map (fun c =>
        { ID := c.Hash, Repository := repository, Message := c.Description,
          AuthorName := "", AuthorEmail := "", Timestamp := now })

/-- The commit-association sub-step of `handlePostPublish` (client.go):
skipped when disabled or when the commit list is empty; a failure becomes a
warning message, a success an "Associated n commits" message. -/
def commitsStep (api : SentryAPI) (cfg : Config) (version : String)
    (releaseCtx : ReleaseContext) (now : String) :
    List String × List Call :=
  if cfg.SetCommits then
    let commits := extractCommits cfg releaseCtx now
    if commits.length > 0 then
      match api.setCommits version commits with
      | Except.error e =>
          (["Warning: Failed to set commits: " ++ e],
           [Call.setCommits version commits])
      | Except.ok _ =>
          (["Associated " ++ toString commits.length ++ " commits"],
           [Call.setCommits version commits])
    else ([], [])
  else ([], [])

/-- The deploy-creation sub-step of `handlePostPublish` (client.go). -/
def deployStep (api : SentryAPI) (cfg : Config) (version : String) :
    List String × List Call :=
  if cfg.CreateDeploy then
    match api.createDeploy version cfg.Deploy with
    | Except.error e =>
        (["Warning: Failed to create deploy: " ++ e],
         [Call.createDeploy version cfg.Deploy])
    | Except.ok d =>
        (["Created deploy: " ++ d.Environment],
         [Call.createDeploy version cfg.Deploy])
  else ([], [])

/-- The finalization sub-step of `handlePostPublish` (client.go). -/
def finalizeStep (api : SentryAPI) (cfg : Config) (version : String) :
    List String × List Call :=
  if cfg.Finalize then
    match api.finalizeRelease version with
    | Except.error e =>
        (["Warning: Failed to finalize release: " ++ e],
         [Call.finalizeRelease version])
    | Except.ok _ => (["Finalized release"], [Call.finalizeRelease version])
  else ([], [])

/-- `handlePostPublish` (client.go): render the version, short-circuit on a
template error; in dry-run report the per-step plan; live, run the three
best-effort sub-steps in order, appending their messages, and fall back to
"No actions taken" when nothing produced a message. -/
def handlePostPublish (engine : TemplateEngine) (api : SentryAPI)
    (cfg : Config) (releaseCtx : ReleaseContext) (dryRun : Bool)
    (now : String) : HandlerResult :=
  match formatVersion engine cfg.VersionFormat releaseCtx with
  | Except.error e =>
      { resp := { Success := false, Message := "",
                  Error := "Failed to format version: " ++ e, Outputs := [] },
        goErr := none, calls := [] }
  | Except.ok version =>
      if dryRun then
        let results :=
          (if cfg.SetCommits then ["Would associate commits with release"]
           else [])
          ++ (if cfg.CreateDeploy then
                ["Would create deploy for environment: "
                  ++ cfg.Deploy.Environment]
              else [])
          ++ (if cfg.Finalize then ["Would finalize release"] else [])
        { resp := { Success := true,
                    Message := String.intercalate "; " results,
                    Error := "",
                    Outputs := [("version", OutputVal.str version)] },
          goErr := none, calls := [] }
      else
        let s1 := commitsStep api cfg version releaseCtx now
        let s2 := deployStep api cfg version
        let s3 := finalizeStep api cfg version
        let results := s1.1 ++ s2.1 ++ s3.1
        let results := if results.isEmpty then ["No actions taken"]
          else results
        { resp := { Success := true,
                    Message := String.intercalate "; " results,
                    Error := "",
                    Outputs := [("version", OutputVal.str version)] },
          goErr := none, calls := s1.2 ++ s2.2 ++ s3.2 }

/-- `handleOnError` (client.go): a no-op that always succeeds. -/
def handleOnError (_cfg : Config) (_releaseCtx : ReleaseContext)
    (_dryRun : Bool) : HandlerResult :=
  { resp := { Success := true,
              Message := "Release failure noted (no Sentry action taken)",
              Error := "", Outputs := [] },
    goErr := none, calls := [] }

/-- Modelled from the spec: the pre-publish hook identifier supplied by the
external plugin SDK (`plugin.HookPrePublish`). -/
def hookPrePublish : String := "pre-publish"

/-- Modelled from the spec: the post-publish hook identifier supplied by the
external plugin SDK (`plugin.HookPostPublish`). -/
def hookPostPublish : String := "post-publish"

/-- Modelled from the spec: the on-error hook identifier supplied by the
external plugin SDK (`plugin.HookOnError`). -/
def hookOnError : String := "on-error"

/-- `SentryPlugin.Execute` (client.go): dispatch on the hook name; unknown
hooks succeed with a "not implemented" message; every path returns a nil
Go-level error. -/
def Execute (engine : TemplateEngine) (api : SentryAPI) (hook : String)
    (cfg : Config) (releaseCtx : ReleaseContext) (dryRun : Bool)
    (now : String) : HandlerResult :=
  if hook = hookPrePublish then
    handlePrePublish engine api cfg releaseCtx dryRun
  else if hook = hookPostPublish then
    handlePostPublish engine api cfg releaseCtx dryRun now
  else if hook = hookOnError then handleOnError cfg releaseCtx dryRun
  else
    { resp := { Success := true,
                Message := "Hook " ++ hook ++ " not implemented",
                Error := "", Outputs := [] },
      goErr := none, calls := [] }

/-- One field-scoped validation error (SDK `helpers.ValidationBuilder`
entry). -/
structure VError where
  Field : String
  Message : String
deriving DecidableEq

/-- The validation response built by the SDK builder: valid iff no errors
were added. -/
structure ValidateResponse where
  Valid : Bool
  Errors : List VError
deriving DecidableEq

/-- Modelled from the spec: `helpers.ValidationBuilder.Build` from the
external plugin SDK — a list of field-scoped errors with a validity flag. -/
def buildValidation (errs : List VError) : ValidateResponse :=
  { Valid := errs.isEmpty, Errors := errs }

/-- `SentryPlugin.Validate` (client.go): a missing auth token short-circuits
with a single error; otherwise org presence, project presence, and template
parseability are checked locally, then (token and org both present) the
organization is fetched remotely and a failure recorded against
`auth_token`. -/
def Validate (engine : TemplateEngine) (api : SentryAPI) (cfg : Config) :
    ValidateResponse × List Call :=
  if cfg.AuthToken = "" then
    (buildValidation [{ Field := "auth_token",
                        Message := "Sentry auth token is required" }], [])
  else
    let e1 := if cfg.Org = "" then
        [{ Field := "org", Message := "Sentry organization is required" }]
      else []
    let e2 := if cfg.getProjects.length = 0 then
        [{ Field := "project",
           Message := "At least one project is required" }]
      else []
    let e3 := if cfg.VersionFormat = "" then []
      else
        match engine.parse cfg.VersionFormat with
        | Except.error err =>
            [{ Field := "version_format",
               Message := "Invalid version format template: " ++ err }]
        | Except.ok _ => []
    if cfg.Org = "" then (buildValidation (e1 ++ e2 ++ e3), [])
    else
      match api.getOrganization with
      | Except.error err =>
          (buildValidation (e1 ++ e2 ++ e3 ++
             [{ Field := "auth_token",
                Message := "Failed to authenticate with Sentry: " ++ err }]),
           [Call.getOrganization])
      | Except.ok _ =>
          (buildValidation (e1 ++ e2 ++ e3), [Call.getOrganization])

/-- Decidable equality of `Except` outcomes, for concrete evaluation. -/
instance {ε α : Type} [DecidableEq ε] [DecidableEq α] :
    DecidableEq (Except ε α) := fun a b =>
  match a, b with
  | Except.ok x, Except.ok y => decidable_of_iff (x = y) (by simp)
  | Except.error x, Except.error y => decidable_of_iff (x = y) (by simp)
  | Except.ok _, Except.error _ => isFalse (by simp)
  | Except.error _, Except.ok _ => isFalse (by simp)

/-- `containsStr` decides list membership, like the `found` loop it
models. -/
theorem containsStr_iff (l : List String) (s : String) :
    containsStr l s = true ↔ s ∈ l := by
  induction l with
  | nil => simp [containsStr]
  | cons a t ih =>
      by_cases h : a = s
      · simp [containsStr, h]
      · have h2 : ¬s = a := fun hs => h hs.symm
        simp [containsStr, h, ih, List.mem_cons, h2]

/-- A baseline configuration used as a concrete fixture. -/
def cfgBase : Config :=
  { AuthToken := "tok", Org := "acme", Project := "", Projects := [],
    URL := "", VersionFormat := "\x7b\x7b.Version\x7d\x7d",
    Environment := "production",
    SetCommits := true, Commits := { Auto := true, Repository := "" },
    CreateDeploy := true,
    Deploy := { Environment := "production", Name := "" },
    UploadSourcemaps := false, Finalize := true }

/-- A concrete release event without categorized changes. -/
def ctx0 : ReleaseContext :=
  { Version := "1.2.3", TagName := "v1.2.3",
    CommitSHA := "abc123def456789", Branch := "main", Changes := none }

/-- Claim C5: the effective project list is the `projects` list with the
singular `project` appended exactly when it is non-empty and not already
present, as on the two example configurations. -/
theorem claim_C5_project_list_union :
    (∀ cfg : Config,
      cfg.getProjects =
        cfg.Projects ++
          (if cfg.Project ≠ "" ∧ cfg.Project ∉ cfg.Projects then
            [cfg.Project]
           else []))
    ∧ Config.getProjects
        { cfgBase with Project := "api",
                       Projects := ["frontend", "backend"] } =
        ["frontend", "backend", "api"]
    ∧ Config.getProjects
        { cfgBase with Project := "frontend",
                       Projects := ["frontend", "backend"] } =
        ["frontend", "backend"] := by
  refine ⟨?_, by rfl, by rfl⟩
  intro cfg
  unfold Config.getProjects
  by_cases h1 : cfg.Project = ""
  · simp [h1]
  · by_cases h2 : containsStr cfg.Projects cfg.Project = true
    · have hm := (containsStr_iff _ _).mp h2
      simp [h1, h2, hm]
    · have hn : cfg.Project ∉ cfg.Projects :=
        fun hm => h2 ((containsStr_iff _ _).mpr hm)
      simp [h1, h2, hn]

/-- Claim C7: `shortSHA` keeps the first 7 characters, the whole string when
shorter, and yields exactly 7 characters on inputs of length at least 7. -/
theorem claim_C7_shortSHA_first_seven :
    shortSHA "abc123def456789" = "abc123d"
    ∧ shortSHA "abc" = "abc"
    ∧ shortSHA "" = ""
    ∧ ∀ s : String, 7 ≤ s.length → (shortSHA s).length = 7 := by
  refine ⟨by rfl, by rfl, by rfl, ?_⟩
  intro s h
  unfold shortSHA
  by_cases hl : s.length > 7
  · have : (String.mk (s.toList.take 7)).length = (s.toList.take 7).length :=
      rfl
    simp only [hl, if_pos, this, List.length_take]
    have hlen : s.toList.length = s.length := rfl
    omega
  · have : s.length = 7 := by omega
    simp [hl, this]

/-- Witness for C7 at a concrete 8-character input. -/
theorem claim_C7_shortSHA_first_seven_witness :
    7 ≤ ("abcdefgh" : String).length
    ∧ (shortSHA "abcdefgh").length = 7 :=
  ⟨by decide, claim_C7_shortSHA_first_seven.2.2.2 "abcdefgh" (by decide)⟩

/-- Claim C8: commit extraction concatenates the four change categories in
order, maps each change to a record with the configured repository (or
"unknown") and the wall-clock timestamp, and is empty when the event carries
no categorized changes. -/
theorem claim_C8_extract_commits (cfg : Config) (rc : ReleaseContext)
    (now : String) :
    (rc.Changes = none → extractCommits cfg rc now = [])
    ∧ (∀ ch : Changes, rc.Changes = some ch →
        extractCommits cfg rc now =
          (ch.Features ++ ch.Fixes ++ ch.Breaking ++ ch.Other).map
            (fun c =>
              { ID := c.Hash,
                Repository :=
                  if cfg.Commits.Repository = "" then "unknown"
                  else cfg.Commits.Repository,
                Message := c.Description, AuthorName := "",
                AuthorEmail := "", Timestamp := now })
        ∧ (ch.Features = [] ∧ ch.Fixes = [] ∧ ch.Breaking = []
            ∧ ch.Other = [] → extractCommits cfg rc now = []))
    ∧ ∀ rec ∈ extractCommits cfg rc now,
        rec.Repository =
          (if cfg.Commits.Repository = "" then "unknown"
           else cfg.Commits.Repository)
        ∧ rec.Timestamp = now := by
  refine ⟨?_, ?_, ?_⟩
  · intro h; simp [extractCommits, h]
  · intro ch h
    constructor
    · simp [extractCommits, h]
    · rintro ⟨h1, h2, h3, h4⟩
      simp [extractCommits, h, h1, h2, h3, h4]
  · intro rec hrec
    unfold extractCommits at hrec
    rcases hch : rc.Changes with _ | ch
    · rw [hch] at hrec; simp at hrec
    · rw [hch] at hrec
      simp only [List.mem_map] at hrec
      obtain ⟨c, _, hc⟩ := hrec
      rw [← hc]
      exact ⟨rfl, rfl⟩

/-- A change set with one feature and one fix, whose commits carry their own
(original) dates. -/
def changesW : Changes :=
  { Features := [{ Hash := "aaaa111", Description := "feat: add x",
                   Date := "2025-01-01T00:00:00Z" }],
    Fixes := [{ Hash := "bbbb222", Description := "fix: repair y",
                Date := "2025-01-02T00:00:00Z" }],
    Breaking := [], Other := [] }

/-- A concrete release event carrying `changesW`. -/
def ctxW : ReleaseContext :=
  { Version := "1.2.3", TagName := "v1.2.3",
    CommitSHA := "abc123def456789", Branch := "main",
    Changes := some changesW }

/-- Witness for C8: on an event with one feature and one fix, extraction
yields the two records in category order, with repository "unknown" and the
wall-clock timestamp. -/
theorem claim_C8_extract_commits_witness :
    ctxW.Changes = some changesW
    ∧ extractCommits cfgBase ctxW "2026-10-11T00:00:00Z" =
        [{ ID := "aaaa111", Repository := "unknown",
           Message := "feat: add x", AuthorName := "", AuthorEmail := "",
           Timestamp := "2026-10-11T00:00:00Z" },
         { ID := "bbbb222", Repository := "unknown",
           Message := "fix: repair y", AuthorName := "", AuthorEmail := "",
           Timestamp := "2026-10-11T00:00:00Z" }] := by
  have h :=
    (claim_C8_extract_commits cfgBase ctxW "2026-10-11T00:00:00Z").2.1
      changesW (by rfl)
  exact ⟨by rfl, by rw [h.1]; rfl⟩

/-- Claim C1: in a live pre-publish run, a failed create followed by a
successful get of the same rendered version yields a successful result
carrying the fetched release; when create and the fallback get both fail the
phase fails with the create error; a successful create also succeeds. -/
theorem claim_C1_prepublish_create_or_fetch
    (engine : TemplateEngine) (api : SentryAPI) (cfg : Config)
    (rc : ReleaseContext) (v : String)
    (hv : formatVersion engine cfg.VersionFormat rc = Except.ok v) :
    (∀ (e : String) (r : Release),
      api.createRelease v cfg.getProjects = Except.error e →
      api.getRelease v = Except.ok r →
      handlePrePublish engine api cfg rc false =
        { resp := { Success := true,
                    Message := "Created Sentry release: " ++ r.Version,
                    Error := "",
                    Outputs := [("version", OutputVal.str r.Version),
                                ("release_url", OutputVal.str r.URL),
                                ("date_created",
                                 OutputVal.str r.DateCreated)] },
          goErr := none,
          calls := [Call.createRelease v cfg.getProjects,
                    Call.getRelease v] })
    ∧ (∀ e e2 : String,
      api.createRelease v cfg.getProjects = Except.error e →
      api.getRelease v = Except.error e2 →
      (handlePrePublish engine api cfg rc false).resp.Success = false
      ∧ (handlePrePublish engine api cfg rc false).resp.Error =
          "Failed to create release: " ++ e
      ∧ (handlePrePublish engine api cfg rc false).calls =
          [Call.createRelease v cfg.getProjects, Call.getRelease v])
    ∧ (∀ r : Release,
      api.createRelease v cfg.getProjects = Except.ok r →
      (handlePrePublish engine api cfg rc false).resp.Success = true) := by
  refine ⟨?_, ?_, ?_⟩
  · intro e r h1 h2
    simp [handlePrePublish, hv, clientCreateRelease, h1, h2]
  · intro e e2 h1 h2
    simp [handlePrePublish, hv, clientCreateRelease, h1, h2]
  · intro r h1
    simp [handlePrePublish, hv, clientCreateRelease, h1]

/-- Configuration fixture for the pre-publish witnesses: one singular project
plus a two-element list. -/
def cfgC1 : Config :=
  { cfgBase with Project := "api", Projects := ["frontend", "backend"] }

/-- The pre-existing remote release returned by the fallback get. -/
def relX : Release :=
  { Version := "1.2.3", ShortVersion := "", Ref := "",
    URL := "https://sentry.example/releases/1.2.3",
    DateCreated := "2026-01-01T00:00:00Z", DateReleased := "",
    Projects := [] }

/-- API fixture for C1: create always fails, get finds `relX`, everything
else fails. -/
def apiC1 : SentryAPI :=
  { getOrganization := Except.error "boom",
    createRelease := fun _ _ => Except.error "already exists",
    getRelease := fun _ => Except.ok relX,
    setCommits := fun _ _ => Except.error "boom",
    createDeploy := fun _ _ => Except.error "boom",
    finalizeRelease := fun _ => Except.error "boom" }

/-- Witness for C1: create fails with "already exists", the fallback get
succeeds, and the phase result is successful with the fetched release's
data. -/
theorem claim_C1_prepublish_create_or_fetch_witness :
    formatVersion goTemplate cfgC1.VersionFormat ctx0 = Except.ok "1.2.3"
    ∧ apiC1.createRelease "1.2.3" cfgC1.getProjects =
        Except.error "already exists"
    ∧ apiC1.getRelease "1.2.3" = Except.ok relX
    ∧ handlePrePublish goTemplate apiC1 cfgC1 ctx0 false =
        { resp := { Success := true,
                    Message := "Created Sentry release: 1.2.3",
                    Error := "",
                    Outputs :=
                      [("version", OutputVal.str "1.2.3"),
                       ("release_url", OutputVal.str
                          "https://sentry.example/releases/1.2.3"),
                       ("date_created",
                        OutputVal.str "2026-01-01T00:00:00Z")] },
          goErr := none,
          calls := [Call.createRelease "1.2.3"
                      ["frontend", "backend", "api"],
                    Call.getRelease "1.2.3"] } :=
  ⟨by rfl, by rfl, by rfl,
   (claim_C1_prepublish_create_or_fetch goTemplate apiC1 cfgC1 ctx0 "1.2.3"
      (by rfl)).1 "already exists" relX (by rfl) (by rfl)⟩

/-- Claim C6: a version-template rendering failure makes both phases return
the failed result carrying the template error, with an empty call trace. -/
theorem claim_C6_template_error_aborts
    (engine : TemplateEngine) (api : SentryAPI) (cfg : Config)
    (rc : ReleaseContext) (now : String) (dryRun : Bool) (e : String)
    (he : formatVersion engine cfg.VersionFormat rc = Except.error e) :
    handlePrePublish engine api cfg rc dryRun =
      { resp := { Success := false, Message := "",
                  Error := "Failed to format version: " ++ e,
                  Outputs := [] },
        goErr := none, calls := [] }
    ∧ handlePostPublish engine api cfg rc dryRun now =
      { resp := { Success := false, Message := "",
                  Error := "Failed to format version: " ++ e,
                  Outputs := [] },
        goErr := none, calls := [] } := by
  constructor <;> simp [handlePrePublish, handlePostPublish, he]

/-- Configuration fixture with an unparseable version template. -/
def cfgBadTmpl : Config := { cfgBase with VersionFormat := "\x7b\x7b" }

/-- Witness for C6 at the concrete template `\x7b\x7b` (unclosed action). -/
theorem claim_C6_template_error_aborts_witness :
    formatVersion goTemplate cfgBadTmpl.VersionFormat ctx0 =
      Except.error "unclosed action"
    ∧ handlePrePublish goTemplate apiC1 cfgBadTmpl ctx0 false =
        { resp := { Success := false, Message := "",
                    Error := "Failed to format version: unclosed action",
                    Outputs := [] },
          goErr := none, calls := [] }
    ∧ handlePostPublish goTemplate apiC1 cfgBadTmpl ctx0 false "t0" =
        { resp := { Success := false, Message := "",
                    Error := "Failed to format version: unclosed action",
                    Outputs := [] },
          goErr := none, calls := [] } :=
  ⟨by rfl,
   (claim_C6_template_error_aborts goTemplate apiC1 cfgBadTmpl ctx0 "t0"
      false "unclosed action" (by rfl)).1,
   (claim_C6_template_error_aborts goTemplate apiC1 cfgBadTmpl ctx0 "t0"
      false "unclosed action" (by rfl)).2⟩

/-- The commit sub-step is a no-op when commit association is disabled. -/
theorem commitsStep_not_set (api : SentryAPI) (cfg : Config) (v : String)
    (rc : ReleaseContext) (now : String) (h : cfg.SetCommits = false) :
    commitsStep api cfg v rc now = ([], []) := by
  simp [commitsStep, h]

/-- The commit sub-step is skipped silently when the derived commit list is
empty. -/
theorem commitsStep_no_commits (api : SentryAPI) (cfg : Config) (v : String)
    (rc : ReleaseContext) (now : String)
    (h : extractCommits cfg rc now = []) :
    commitsStep api cfg v rc now = ([], []) := by
  cases hs : cfg.SetCommits <;> simp [commitsStep, hs, h]

/-- The commit sub-step performs exactly its own call when enabled and
non-empty, whatever the outcome. -/
theorem commitsStep_attempted (api : SentryAPI) (cfg : Config) (v : String)
    (rc : ReleaseContext) (now : String) (h1 : cfg.SetCommits = true)
    (h2 : extractCommits cfg rc now ≠ []) :
    (commitsStep api cfg v rc now).2 =
      [Call.setCommits v (extractCommits cfg rc now)] := by
  have hp : 0 < (extractCommits cfg rc now).length := List.length_pos.mpr h2
  cases he : api.setCommits v (extractCommits cfg rc now) <;>
    simp [commitsStep, h1, hp, he]

/-- A failing enabled commit sub-step yields exactly the warning message. -/
theorem commitsStep_warning (api : SentryAPI) (cfg : Config) (v : String)
    (rc : ReleaseContext) (now : String) (e : String)
    (h1 : cfg.SetCommits = true) (h2 : extractCommits cfg rc now ≠ [])
    (he : api.setCommits v (extractCommits cfg rc now) = Except.error e) :
    (commitsStep api cfg v rc now).1 =
      ["Warning: Failed to set commits: " ++ e] := by
  have hp : 0 < (extractCommits cfg rc now).length := List.length_pos.mpr h2
  simp [commitsStep, h1, hp, he]

/-- The deploy sub-step is a no-op when disabled. -/
theorem deployStep_off (api : SentryAPI) (cfg : Config) (v : String)
    (h : cfg.CreateDeploy = false) : deployStep api cfg v = ([], []) := by
  simp [deployStep, h]

/-- The deploy sub-step performs exactly its own call when enabled. -/
theorem deployStep_attempted (api : SentryAPI) (cfg : Config) (v : String)
    (h : cfg.CreateDeploy = true) :
    (deployStep api cfg v).2 = [Call.createDeploy v cfg.Deploy] := by
  cases he : api.createDeploy v cfg.Deploy <;> simp [deployStep, h, he]

/-- A failing enabled deploy sub-step yields exactly the warning message. -/
theorem deployStep_warning (api : SentryAPI) (cfg : Config) (v e : String)
    (h : cfg.CreateDeploy = true)
    (he : api.createDeploy v cfg.Deploy = Except.error e) :
    (deployStep api cfg v).1 =
      ["Warning: Failed to create deploy: " ++ e] := by
  simp [deployStep, h, he]

/-- The finalize sub-step is a no-op when disabled. -/
theorem finalizeStep_off (api : SentryAPI) (cfg : Config) (v : String)
    (h : cfg.Finalize = false) : finalizeStep api cfg v = ([], []) := by
  simp [finalizeStep, h]

/-- The finalize sub-step performs exactly its own call when enabled. -/
theorem finalizeStep_attempted (api : SentryAPI) (cfg : Config) (v : String)
    (h : cfg.Finalize = true) :
    (finalizeStep api cfg v).2 = [Call.finalizeRelease v] := by
  cases he : api.finalizeRelease v <;> simp [finalizeStep, h, he]

/-- A failing enabled finalize sub-step yields exactly the warning
message. -/
theorem finalizeStep_warning (api : SentryAPI) (cfg : Config) (v e : String)
    (h : cfg.Finalize = true)
    (he : api.finalizeRelease v = Except.error e) :
    (finalizeStep api cfg v).1 =
      ["Warning: Failed to finalize release: " ++ e] := by
  simp [finalizeStep, h, he]

/-- Shape of a live post-publish run whose version rendered: the three
sub-steps contribute messages and calls in fixed order, with the
"No actions taken" fallback. -/
theorem handlePostPublish_live (engine : TemplateEngine) (api : SentryAPI)
    (cfg : Config) (rc : ReleaseContext) (now v : String)
    (hv : formatVersion engine cfg.VersionFormat rc = Except.ok v) :
    handlePostPublish engine api cfg rc false now =
      { resp := { Success := true,
                  Message := String.intercalate "; "
                    (if ((commitsStep api cfg v rc now).1
                          ++ (deployStep api cfg v).1
                          ++ (finalizeStep api cfg v).1).isEmpty then
                      ["No actions taken"]
                     else
                      (commitsStep api cfg v rc now).1
                        ++ (deployStep api cfg v).1
                        ++ (finalizeStep api cfg v).1),
                  Error := "",
                  Outputs := [("version", OutputVal.str v)] },
        goErr := none,
        calls := (commitsStep api cfg v rc now).2 ++ (deployStep api cfg v).2
                   ++ (finalizeStep api cfg v).2 } := by
  simp [handlePostPublish, hv]

/-- Claim C2: in a live post-publish run whose version rendered, the result
always succeeds with a nil Go error; the three sub-steps are attempted in
the fixed commits-deploy-finalize order, each independently of the others'
outcomes; and each failing enabled sub-step contributes a warning to the
message list the result message is joined from. -/
theorem claim_C2_postpublish_best_effort (engine : TemplateEngine)
    (api : SentryAPI) (cfg : Config) (rc : ReleaseContext) (now v : String)
    (hv : formatVersion engine cfg.VersionFormat rc = Except.ok v) :
    ((handlePostPublish engine api cfg rc false now).resp.Success = true)
    ∧ ((handlePostPublish engine api cfg rc false now).goErr = none)
    ∧ ((handlePostPublish engine api cfg rc false now).calls =
        (commitsStep api cfg v rc now).2 ++ (deployStep api cfg v).2
          ++ (finalizeStep api cfg v).2)
    ∧ (cfg.SetCommits = true → extractCommits cfg rc now ≠ [] →
        Call.setCommits v (extractCommits cfg rc now) ∈
          (handlePostPublish engine api cfg rc false now).calls)
    ∧ (cfg.CreateDeploy = true →
        Call.createDeploy v cfg.Deploy ∈
          (handlePostPublish engine api cfg rc false now).calls)
    ∧ (cfg.Finalize = true →
        Call.finalizeRelease v ∈
          (handlePostPublish engine api cfg rc false now).calls)
    ∧ ((handlePostPublish engine api cfg rc false now).resp.Message =
        String.intercalate "; "
          (if ((commitsStep api cfg v rc now).1 ++ (deployStep api cfg v).1
                ++ (finalizeStep api cfg v).1).isEmpty then
            ["No actions taken"]
           else
            (commitsStep api cfg v rc now).1 ++ (deployStep api cfg v).1
              ++ (finalizeStep api cfg v).1))
    ∧ (∀ e : String, cfg.SetCommits = true →
        extractCommits cfg rc now ≠ [] →
        api.setCommits v (extractCommits cfg rc now) = Except.error e →
        ("Warning: Failed to set commits: " ++ e) ∈
          (commitsStep api cfg v rc now).1)
    ∧ (∀ e : String, cfg.CreateDeploy = true →
        api.createDeploy v cfg.Deploy = Except.error e →
        ("Warning: Failed to create deploy: " ++ e) ∈
          (deployStep api cfg v).1)
    ∧ (∀ e : String, cfg.Finalize = true →
        api.finalizeRelease v = Except.error e →
        ("Warning: Failed to finalize release: " ++ e) ∈
          (finalizeStep api cfg v).1) := by
  have hL := handlePostPublish_live engine api cfg rc now v hv
  refine ⟨by rw [hL], by rw [hL], by rw [hL], ?_, ?_, ?_, by rw [hL], ?_,
          ?_, ?_⟩
  · intro h1 h2
    rw [hL]
    simp [commitsStep_attempted api cfg v rc now h1 h2]
  · intro h
    rw [hL]
    simp [deployStep_attempted api cfg v h]
  · intro h
    rw [hL]
    simp [finalizeStep_attempted api cfg v h]
  · intro e h1 h2 he
    simp [commitsStep_warning api cfg v rc now e h1 h2 he]
  · intro e h he
    simp [deployStep_warning api cfg v e h he]
  · intro e h he
    simp [finalizeStep_warning api cfg v e h he]

/-- The deploy record returned by the C2 fixture API. -/
def deployProd : Deploy :=
  { ID := "7", Environment := "production", Name := "",
    DateStarted := "", DateFinished := "" }

/-- API fixture for C2: commit association fails, deploy creation and
finalization succeed. -/
def apiC2 : SentryAPI :=
  { getOrganization := Except.error "boom",
    createRelease := fun _ _ => Except.error "boom",
    getRelease := fun _ => Except.error "boom",
    setCommits := fun _ _ => Except.error "boom",
    createDeploy := fun _ _ => Except.ok deployProd,
    finalizeRelease := fun _ => Except.ok () }

/-- Witness for C2: with commit association failing and the other two steps
succeeding, the phase succeeds, all three calls happen in order, and the
message carries the warning alongside the two success messages. -/
theorem claim_C2_postpublish_best_effort_witness :
    formatVersion goTemplate cfgBase.VersionFormat ctxW = Except.ok "1.2.3"
    ∧ apiC2.setCommits "1.2.3" (extractCommits cfgBase ctxW "t0") =
        Except.error "boom"
    ∧ (handlePostPublish goTemplate apiC2 cfgBase ctxW false "t0").resp.Success
        = true
    ∧ (handlePostPublish goTemplate apiC2 cfgBase ctxW false "t0").resp.Message
        = "Warning: Failed to set commits: boom; Created deploy: production; Finalized release"
    ∧ (handlePostPublish goTemplate apiC2 cfgBase ctxW false "t0").calls =
        [Call.setCommits "1.2.3" (extractCommits cfgBase ctxW "t0"),
         Call.createDeploy "1.2.3" cfgBase.Deploy,
         Call.finalizeRelease "1.2.3"] := by
  have h := claim_C2_postpublish_best_effort goTemplate apiC2 cfgBase ctxW
    "t0" "1.2.3" (by rfl)
  refine ⟨by rfl, by rfl, h.1, ?_, ?_⟩
  · rw [h.2.2.2.2.2.2.1]; rfl
  · rw [h.2.2.1]; rfl

/-- Counterexample to C3 as stated: with the unparseable version template
`\x7b\x7b`, a dry-run pre-publish (and post-publish) returns Success = false,
so dry-run does not always report success. -/
theorem claim_C3_dry_run_counterexample :
    (handlePrePublish goTemplate apiC1 cfgBadTmpl ctx0 true).resp.Success =
      false
    ∧ (handlePostPublish goTemplate apiC1 cfgBadTmpl ctx0 true
        "t0").resp.Success = false := ⟨by rfl, by rfl⟩

/-- Claim C3 as amended: dry-run pre-publish and post-publish never perform a
remote call, and whenever the version-format template renders successfully
they report success. -/
theorem claim_C3_dry_run_amended (engine : TemplateEngine) (api : SentryAPI)
    (cfg : Config) (rc : ReleaseContext) (now : String) :
    (handlePrePublish engine api cfg rc true).calls = []
    ∧ (handlePostPublish engine api cfg rc true now).calls = []
    ∧ ∀ v : String, formatVersion engine cfg.VersionFormat rc = Except.ok v →
        (handlePrePublish engine api cfg rc true).resp.Success = true
        ∧ (handlePostPublish engine api cfg rc true now).resp.Success =
            true := by
  cases h : formatVersion engine cfg.VersionFormat rc with
  | error e =>
      refine ⟨by simp [handlePrePublish, h], by simp [handlePostPublish, h],
              ?_⟩
      intro v hv
      simp at hv
  | ok v =>
      refine ⟨by simp [handlePrePublish, h], by simp [handlePostPublish, h],
              ?_⟩
      intro v' _
      exact ⟨by simp [handlePrePublish, h], by simp [handlePostPublish, h]⟩

/-- Witness for the amended C3 at a concrete renderable configuration. -/
theorem claim_C3_dry_run_amended_witness :
    formatVersion goTemplate cfgBase.VersionFormat ctx0 = Except.ok "1.2.3"
    ∧ (handlePrePublish goTemplate apiC1 cfgBase ctx0 true).calls = []
    ∧ (handlePostPublish goTemplate apiC1 cfgBase ctx0 true "t0").calls = []
    ∧ (handlePrePublish goTemplate apiC1 cfgBase ctx0 true).resp.Success =
        true
    ∧ (handlePostPublish goTemplate apiC1 cfgBase ctx0 true
        "t0").resp.Success = true := by
  have h := claim_C3_dry_run_amended goTemplate apiC1 cfgBase ctx0 "t0"
  have h3 := h.2.2 "1.2.3" (by rfl)
  exact ⟨by rfl, h.1, h.2.1, h3.1, h3.2⟩

/-- Configuration fixture with all three post-publish sub-steps disabled. -/
def cfgAllOff : Config :=
  { cfgBase with SetCommits := false, CreateDeploy := false,
                 Finalize := false }

/-- Counterexample to C4 as stated: a dry-run post-publish invocation with
all three sub-steps disabled returns the empty message, not
"No actions taken" — the sentinel exists only on the live path. -/
theorem claim_C4_no_actions_counterexample :
    cfgAllOff.SetCommits = false
    ∧ cfgAllOff.CreateDeploy = false
    ∧ cfgAllOff.Finalize = false
    ∧ (handlePostPublish goTemplate apiC1 cfgAllOff ctx0 true
        "t0").resp.Message = ""
    ∧ (handlePostPublish goTemplate apiC1 cfgAllOff ctx0 true "t0").calls =
        [] := ⟨by rfl, by rfl, by rfl, by rfl, by rfl⟩

/-- Claim C4 as amended: in a live post-publish run whose version rendered,
with every sub-step disabled or the commit step skipped for want of commits,
the message is exactly "No actions taken", no remote calls occur, and the
result succeeds. -/
theorem claim_C4_no_actions_amended (engine : TemplateEngine)
    (api : SentryAPI) (cfg : Config) (rc : ReleaseContext) (now v : String)
    (hv : formatVersion engine cfg.VersionFormat rc = Except.ok v)
    (hc : cfg.SetCommits = false ∨ extractCommits cfg rc now = [])
    (hd : cfg.CreateDeploy = false) (hf : cfg.Finalize = false) :
    (handlePostPublish engine api cfg rc false now).resp.Message =
      "No actions taken"
    ∧ (handlePostPublish engine api cfg rc false now).calls = []
    ∧ (handlePostPublish engine api cfg rc false now).resp.Success =
        true := by
  have h1 : commitsStep api cfg v rc now = ([], []) := by
    rcases hc with hc | hc
    · exact commitsStep_not_set api cfg v rc now hc
    · exact commitsStep_no_commits api cfg v rc now hc
  have hsingle : String.intercalate "; " ["No actions taken"] =
      "No actions taken" := rfl
  rw [handlePostPublish_live engine api cfg rc now v hv]
  simp [h1, deployStep_off api cfg v hd, finalizeStep_off api cfg v hf,
        hsingle]

/-- Witness for the amended C4: live run on the all-disabled
configuration. -/
theorem claim_C4_no_actions_amended_witness :
    formatVersion goTemplate cfgAllOff.VersionFormat ctx0 =
      Except.ok "1.2.3"
    ∧ (handlePostPublish goTemplate apiC1 cfgAllOff ctx0 false
        "t0").resp.Message = "No actions taken"
    ∧ (handlePostPublish goTemplate apiC1 cfgAllOff ctx0 false "t0").calls =
        []
    ∧ (handlePostPublish goTemplate apiC1 cfgAllOff ctx0 false
        "t0").resp.Success = true := by
  have h := claim_C4_no_actions_amended goTemplate apiC1 cfgAllOff ctx0 "t0"
    "1.2.3" (by rfl) (Or.inl (by rfl)) (by rfl) (by rfl)
  exact ⟨by rfl, h.1, h.2.1, h.2.2⟩

/-- Claim C9: with an empty auth token, validation reports exactly the one
auth-token error and performs no remote fetch — later checks are skipped. -/
theorem claim_C9_validate_missing_token (engine : TemplateEngine)
    (api : SentryAPI) (cfg : Config) (h : cfg.AuthToken = "") :
    Validate engine api cfg =
      ({ Valid := false,
         Errors := [{ Field := "auth_token",
                      Message := "Sentry auth token is required" }] },
       []) := by
  simp [Validate, h, buildValidation]

/-- Configuration fixture with an empty token and every other field invalid
too (empty org, no projects, unparseable template). -/
def cfgNoToken : Config :=
  { cfgBase with AuthToken := "", Org := "", Project := "", Projects := [],
                 VersionFormat := "\x7b\x7b" }

/-- Witness for C9: even with org, projects and template all invalid, the
empty token short-circuits to the single auth-token error and no call. -/
theorem claim_C9_validate_missing_token_witness :
    cfgNoToken.AuthToken = ""
    ∧ cfgNoToken.Org = ""
    ∧ cfgNoToken.getProjects = []
    ∧ goTemplate.parse cfgNoToken.VersionFormat =
        Except.error "unclosed action"
    ∧ Validate goTemplate apiC1 cfgNoToken =
        ({ Valid := false,
           Errors := [{ Field := "auth_token",
                        Message := "Sentry auth token is required" }] },
         []) :=
  ⟨by rfl, by rfl, by rfl, by rfl,
   claim_C9_validate_missing_token goTemplate apiC1 cfgNoToken (by rfl)⟩

/-- The pre-publish handler always returns a nil Go-level error. -/
theorem handlePrePublish_goErr (engine : TemplateEngine) (api : SentryAPI)
    (cfg : Config) (rc : ReleaseContext) (dryRun : Bool) :
    (handlePrePublish engine api cfg rc dryRun).goErr = none := by
  cases h : formatVersion engine cfg.VersionFormat rc with
  | error e => simp [handlePrePublish, h]
  | ok v =>
      cases hd : dryRun
      · rcases hcc : clientCreateRelease api v cfg.getProjects with
          ⟨res, calls⟩
        cases res <;> simp [handlePrePublish, h, hcc]
      · simp [handlePrePublish, h]

/-- The post-publish handler always returns a nil Go-level error. -/
theorem handlePostPublish_goErr (engine : TemplateEngine) (api : SentryAPI)
    (cfg : Config) (rc : ReleaseContext) (dryRun : Bool) (now : String) :
    (handlePostPublish engine api cfg rc dryRun now).goErr = none := by
  cases h : formatVersion engine cfg.VersionFormat rc with
  | error e => simp [handlePostPublish, h]
  | ok v => cases hd : dryRun <;> simp [handlePostPublish, h]

/-- Claim C10: `Execute` never returns a Go-level error on any path, and on
any hook other than the three supported ones it succeeds with the
"Hook ... not implemented" message and makes no remote calls. -/
theorem claim_C10_execute_unknown_hook (engine : TemplateEngine)
    (api : SentryAPI) (cfg : Config) (rc : ReleaseContext) (dryRun : Bool)
    (now : String) :
    (∀ hook : String,
      (Execute engine api hook cfg rc dryRun now).goErr = none)
    ∧ ∀ hook : String, hook ≠ hookPrePublish → hook ≠ hookPostPublish →
        hook ≠ hookOnError →
        Execute engine api hook cfg rc dryRun now =
          { resp := { Success := true,
                      Message := "Hook " ++ hook ++ " not implemented",
                      Error := "", Outputs := [] },
            goErr := none, calls := [] } := by
  have hne1 : hookPostPublish ≠ hookPrePublish := by decide
  have hne2 : hookOnError ≠ hookPrePublish := by decide
  have hne3 : hookOnError ≠ hookPostPublish := by decide
  constructor
  · intro hook
    by_cases h1 : hook = hookPrePublish
    · simp [Execute, h1, handlePrePublish_goErr]
    · by_cases h2 : hook = hookPostPublish
      · simp [Execute, h2, hne1, handlePostPublish_goErr]
      · by_cases h3 : hook = hookOnError
        · simp [Execute, h3, hne2, hne3, handleOnError]
        · simp [Execute, h1, h2, h3]
  · intro hook h1 h2 h3
    simp [Execute, h1, h2, h3]

/-- Witness for C10 at the concrete unknown hook name "version-bump". -/
theorem claim_C10_execute_unknown_hook_witness :
    ("version-bump" : String) ≠ hookPrePublish
    ∧ Execute goTemplate apiC1 "version-bump" cfgBase ctx0 false "t0" =
        { resp := { Success := true,
                    Message := "Hook version-bump not implemented",
                    Error := "", Outputs := [] },
          goErr := none, calls := [] } :=
  ⟨by decide,
   (claim_C10_execute_unknown_hook goTemplate apiC1 cfgBase ctx0 false
      "t0").2 "version-bump" (by decide) (by decide) (by decide)⟩
